import Mathlib

/-!
Verification development for the FinGear stock-screening pipeline.

This file gives a shallow embedding, in Lean 4, of the decision logic of
`src/factors.py` (class FactorEngine) and `src/screener.py` (class
StockScreener), and proves the behavioural properties stated in the
specification against that embedding.

Modelling conventions:
- Python floats are modelled as rationals (ℚ); float NaN is modelled with
  Option (none = NaN) where a computation can produce it.
- A pandas DataFrame of quarterly fundamentals is modelled as an
  association list from column name to the column values (rows ascending
  by date, as produced by FactorEngine._get_fundamental_data, which sorts
  by date before any factor computation).
- Fallible Python code (raising exceptions) is modelled with Except;
  a caller that catches an exception pattern-matches on the error case.
- pandas Series.std (a numerical routine producing an irrational square
  root, possibly NaN) is treated as an external numerical collaborator
  and passed as an explicit function parameter; none models NaN.
- The pandas_ta indicator library (macd, rsi, stoch, bbands) is an
  external collaborator of screener.py; its four indicator outputs are
  modelled as oracle functions bundled in a structure. The branch logic
  that screener.py applies to those outputs is embedded faithfully.
-/

namespace FinGear

/-! ## Generic list helpers (pandas tail / mean / iloc idioms) -/

/-- pandas `Series.tail(n)`: the last `n` elements of a list. -/
def lastN {α : Type*} (n : ℕ) (xs : List α) : List α := xs.drop (xs.length - n)

/-- pandas `Series.mean()` over rationals: sum divided by length
(0 for the empty list, which pandas would report as NaN; the embedding
only relies on the value of `qmean` on nonempty lists). -/
def qmean (xs : List ℚ) : ℚ := xs.sum / (xs.length : ℚ)

/-! ## DataFrame model for quarterly fundamentals -/

/-- A pandas DataFrame with rational-valued columns, modelled as an
association list from column name to column values. -/
abbrev DataFrame := List (String × List ℚ)

/-- Column lookup, `df[c]`; `none` when the column is absent. -/
def df_get_col (df : DataFrame) (c : String) : Option (List ℚ) :=
  (df.find? (fun col => col.1 == c)).map Prod.snd

/-- Membership test `c in df.columns`. -/
def df_has_col (df : DataFrame) (c : String) : Bool :=
  (df_get_col df c).isSome

/-- pandas `len(df)`: the number of rows (length of the first column;
0 for a DataFrame with no columns). -/
def df_nrows (df : DataFrame) : ℕ :=
  match df with
  | [] => 0
  | c :: _ => c.2.length

/-! ## src/factors.py — FactorEngine -/

/-- Outcome of attempting to read `config/parameters.yaml`
(factors.py lines 74-88): the file can be missing, unreadable
(the `except` branch), or parsed into a `screening.factor_weights`
mapping. -/
inductive ConfigSource
  | missing
  | unreadable
  | parsed (weights : List (String × ℚ))

/-- Default factor weights hard-coded in FactorEngine._load_weights
(factors.py lines 64-72). -/
def default_weights : List (String × ℚ) :=
  [("roe", 20/100), ("eps_yoy", 20/100), ("fcf", 15/100),
   ("gross_margin_trend", 15/100), ("revenue_yoy", 10/100),
   ("debt_ratio", 10/100), ("pe_relative", 10/100)]

/-- FactorEngine._load_weights (factors.py lines 62-88): a missing or
unreadable config file, or an empty weights mapping, falls back to the
defaults; any nonempty parsed mapping is returned exactly as loaded.
No validation of any kind (in particular no sum-to-1 check) is
performed. -/
def load_weights : ConfigSource → List (String × ℚ)
  | .missing => default_weights
  | .unreadable => default_weights
  | .parsed w => if w.isEmpty then default_weights else w

/-- The state of a constructed FactorEngine that the embedded claims
depend on: the loaded weight mapping (factors.py line 49). -/
structure FactorEngine where
  weights : List (String × ℚ)
deriving Repr, DecidableEq

/-- FactorEngine.__init__ (factors.py lines 37-60): construction loads
the weights and always succeeds; it is a total function with no error
outcome. -/
def FactorEngine.init (cfg : ConfigSource) : FactorEngine :=
  { weights := load_weights cfg }

/-- Keys of the `fundamental_factors` registry, in the order registered
at factors.py lines 52-60. -/
def factor_names : List String :=
  ["roe", "gross_margin_trend", "debt_ratio", "fcf",
   "revenue_yoy", "eps_yoy", "pe_relative"]

/-- Python `weights.get(f, 0)`: dictionary lookup with default 0. -/
def wget (w : List (String × ℚ)) (f : String) : ℚ :=
  (w.lookup f).getD 0

/-- The weighted aggregation of factors.py line 113:
`sum(scores[f] * weights.get(f, 0) for f in scores if f in weights)`.
A factor name absent from the weight mapping contributes `score * 0`,
which is exactly the effect of skipping it, so the guard `if f in
weights` is absorbed into the 0 default. -/
def weighted_score (w : List (String × ℚ)) (s : String → ℕ) : ℚ :=
  (factor_names.map (fun f => (s f : ℚ) * wget w f)).sum

/-- The composite fundamental score of factors.py line 115:
`final_score = weighted_score * 40`. -/
def final_score (w : List (String × ℚ)) (s : String → ℕ) : ℚ :=
  weighted_score w s * 40

/-- The ordered threshold tables of FactorEngine._score_factor
(factors.py lines 342-363). A threshold of `none` stands for the
plus-or-minus infinity row, which matches every value. -/
def scoring_rules (factor_name : String) : List (Option ℚ × ℕ) :=
  if factor_name = "roe" then
    [(some 20, 5), (some 15, 4), (some 10, 3), (some 5, 2), (none, 1)]
  else if factor_name = "eps_yoy" then
    [(some 30, 5), (some 15, 4), (some 0, 3), (some (-10), 2), (none, 1)]
  else if factor_name = "fcf" then
    [(some 5000000000, 5), (some 1000000000, 4), (some 0, 3),
     (some (-1000000000), 2), (none, 1)]
  else if factor_name = "gross_margin_trend" then
    [(some 2, 5), (some (1/2), 4), (some (-(1/2)), 3), (some (-2), 2), (none, 1)]
  else if factor_name = "revenue_yoy" then
    [(some 20, 5), (some 10, 4), (some 0, 3), (some (-5), 2), (none, 1)]
  else if factor_name = "debt_ratio" then
    [(some 30, 5), (some 50, 4), (some 70, 3), (some 85, 2), (none, 1)]
  else if factor_name = "pe_relative" then
    [(some (-1), 5), (some 0, 4), (some 1, 3), (some 2, 2), (none, 1)]
  else []

/-- The reverse-scored (lower-is-better) factors, factors.py line 372. -/
def reverse_factors : List String := ["debt_ratio", "pe_relative"]

/-- One threshold test of the scan at factors.py lines 374-382: a
reverse factor matches when `raw_value <= threshold`, a direct factor
when `raw_value >= threshold`; the infinity row always matches. -/
def threshold_matches (is_reverse : Bool) (raw_value : ℚ) : Option ℚ → Bool
  | none => true
  | some t => if is_reverse then decide (raw_value ≤ t) else decide (t ≤ raw_value)

/-- The top-to-bottom scan of the rule table (factors.py lines 374-384):
the first matching threshold wins; if nothing matches the score is 1. -/
def scan_rules (is_reverse : Bool) (raw_value : ℚ) : List (Option ℚ × ℕ) → ℕ
  | [] => 1
  | (t, sc) :: rest =>
      if threshold_matches is_reverse raw_value t then sc
      else scan_rules is_reverse raw_value rest

/-- FactorEngine._score_factor (factors.py lines 328-384): an unknown
factor name (empty rule table) scores 3; otherwise the ordered scan of
the rule table decides the score. -/
def score_factor (factor_name : String) (raw_value : ℚ) : ℕ :=
  let rules := scoring_rules factor_name
  if rules.isEmpty then 3
  else scan_rules (reverse_factors.contains factor_name) raw_value rules

/-- FactorEngine._calculate_roe (factors.py lines 150-189), operating on
the date-sorted fundamentals DataFrame returned by
_get_fundamental_data. The guards appear in source order: the
empty-or-short check precedes the required-column check, which precedes
the non-positive-equity check. ValidationError is modelled as the error
case of Except. -/
def calculate_roe (df : DataFrame) : Except String ℚ :=
  if df_nrows df < 4 then .ok 0
  else if !(df_has_col df "net_income" && df_has_col df "equity") then
    .error "Missing columns for ROE"
  else
    let equity := (df_get_col df "equity").getD []
    let net_income := (df_get_col df "net_income").getD []
    if (lastN 4 equity).any (fun x => decide (x ≤ 0)) then .ok 0
    else
      let ttm_net_income := (lastN 4 net_income).sum
      let avg_equity := qmean (lastN 4 equity)
      if avg_equity ≤ 0 then .ok 0
      else .ok (ttm_net_income / avg_equity * 100)

/-! ## FactorEngine._calculate_pe_relative (factors.py lines 270-326)

The price history is the (date, close) series of the daily partition and
the fundamentals the (date, eps) series, both ascending by date (the
source sorts both before merging). The rolling 4-quarter TTM EPS, the
backward as-of merge and the positive-PE window are each embedded as a
named definition so that the theorems can speak about them. -/

/-- pandas `eps.rolling(window=4).sum()` followed by `.dropna()`, kept
together with the date of the window end: every 4 consecutive quarters
(d0,e0)..(d3,e3) yield the row (d3, e0+e1+e2+e3). -/
def ttm_rows : List (ℚ × ℚ) → List (ℚ × ℚ)
  | (_, e0) :: (d1, e1) :: (d2, e2) :: (d3, e3) :: rest =>
      (d3, e0 + e1 + e2 + e3) :: ttm_rows ((d1, e1) :: (d2, e2) :: (d3, e3) :: rest)
  | _ => []

/-- pandas `merge_asof(..., direction="backward")` for one price date:
the value of the last table row whose date is at or before `d` (the
table ascending by date); `none` when no row qualifies. -/
def merge_asof_backward (tbl : List (ℚ × ℚ)) (d : ℚ) : Option ℚ :=
  ((tbl.filter (fun p => decide (p.1 ≤ d))).getLast?).map Prod.snd

/-- The per-day PE column `merged["pe"] = merged["close"] / merged["ttm_eps"]`
(factors.py line 303): `none` models the NaN produced for price rows with
no matching TTM EPS. (For a zero TTM EPS the source float division gives
a non-finite value where this embedding gives the rational 0; both are
rejected by the positive-PE filter below, and the claims do not touch
that corner.) -/
def merged_pe (price fund : List (ℚ × ℚ)) : List (Option ℚ) :=
  price.map (fun pc => (merge_asof_backward (ttm_rows fund) pc.1).map (fun t => pc.2 / t))

/-- The positive-PE window of factors.py line 305:
`merged[merged.pe > 0].pe.tail(252 * 3)`. -/
def pe_series (price fund : List (ℚ × ℚ)) : List ℚ :=
  lastN 756 (((merged_pe price fund).filterMap id).filter (fun pe => decide (0 < pe)))

/-- `current_pe = merged["pe"].iloc[-1]` (factors.py line 312): the PE of
the last price row, `none` when it is NaN. -/
def current_pe (price fund : List (ℚ × ℚ)) : Option ℚ :=
  ((merged_pe price fund).getLastD none)

/-- The tail of FactorEngine._calculate_pe_relative (factors.py lines
310-326), as a function of the mean PE, the standard deviation of the
PE window (the second argument; `none` models the NaN pandas std
returns on a window of length below 2) and the current PE (the third
argument; `none` models NaN): a NaN or non-positive current PE yields
2.0; a positive standard deviation yields the standardized deviation;
otherwise the ratio of current to mean PE (1.0 when the mean is not
positive, which cannot happen on a nonempty positive window). -/
def pe_relative_of_current (mean_pe : ℚ) : Option ℚ → Option ℚ → ℚ
  | _, none => 2
  | none, some cur =>
      if cur ≤ 0 then 2
      else if 0 < mean_pe then cur / mean_pe else 1
  | some s, some cur =>
      if cur ≤ 0 then 2
      else if 0 < s then (cur - mean_pe) / s
      else if 0 < mean_pe then cur / mean_pe else 1

/-- FactorEngine._calculate_pe_relative (factors.py lines 270-326):
the early 1.0 guards of line 282, the empty-positive-series guard of
line 307, then the final-value computation of lines 310-326 via
pe_relative_of_current applied to the mean, the standard deviation and
the current PE. `std` is the external pandas `Series.std` routine. The
source guard also returns 1.0 when the eps column is absent; this
embedding receives the extracted (date, eps) series, for which that
case coincides with the empty-fundamentals case. -/
def pe_relative (std : List ℚ → Option ℚ) (price fund : List (ℚ × ℚ)) : ℚ :=
  if price.isEmpty ∨ fund.isEmpty ∨ fund.length < 5 then 1
  else
    let series := pe_series price fund
    if series.isEmpty then 1
    else pe_relative_of_current (qmean series) (std series) (current_pe price fund)

/-! ## src/screener.py — StockScreener

The screener is constructed with an injected factor engine and data
manager. The engine enters Layer 1 only through the call
`factor_engine.calculate_fundamental_details(symbol)` (screener.py line
81), modelled as a function to Except; the data manager enters through
its four read methods, modelled as functions from a symbol to the data
they return. -/

/-- The value screener.py line 81 expects from
`calculate_fundamental_details`: a dict with the composite score under
`total_score` and the per-factor scores under `factors` (each factor a
dict whose `score` entry is the ordinal score). -/
structure FactorDetails where
  total_score : ℚ
  factors : List (String × ℕ)
deriving Repr, DecidableEq

/-- A row of the Layer-1 result table (screener.py lines 93-99).
The per-factor breakdown dict is kept; the descriptive label strings of
later layers are omitted from the embedding. -/
structure L1Row where
  symbol : String
  stock_name : String
  fundamental_score : ℚ
  pe_score : ℕ
  fundamental_details : List (String × ℕ)
deriving Repr, DecidableEq

/-- The comparison under `sort_values("fundamental_score", ascending=False)`
(screener.py line 107): row `a` may precede row `b` when its score is at
least that of `b`. -/
def l1_desc (a b : L1Row) : Bool :=
  decide (b.fundamental_score ≤ a.fundamental_score)

/-- The per-symbol loop body of StockScreener._layer1_fundamental_screen
(screener.py lines 77-103): a symbol whose details call raises is caught
at line 100 and skipped; a symbol whose pe_relative score (defaulting to
1 when absent) is below 4 is filtered at line 89; every other symbol
contributes one result row. -/
def layer1_survivors (calc_details : String → Except String FactorDetails)
    (get_stock_name : String → String) (univ : List String) : List L1Row :=
  univ.filterMap (fun symbol =>
    match calc_details symbol with
    | .error _ => none
    | .ok details =>
        let pe_score := ((details.factors.lookup "pe_relative").getD 1)
        if pe_score < 4 then none
        else some { symbol := symbol,
                    stock_name := get_stock_name symbol,
                    fundamental_score := details.total_score,
                    pe_score := pe_score,
                    fundamental_details := details.factors })

/-- StockScreener._layer1_fundamental_screen (screener.py lines 70-107):
collect the survivor rows, return the empty table if none, otherwise
sort by composite score descending and truncate to the top 30. -/
def layer1_fundamental_screen (calc_details : String → Except String FactorDetails)
    (get_stock_name : String → String) (univ : List String) : List L1Row :=
  let df := layer1_survivors calc_details get_stock_name univ
  if df.isEmpty then df
  else (df.mergeSort l1_desc).take 30

/-! ### Layer 2 — chip scoring (screener.py lines 109-236) -/

/-- One daily institutional net-flow record (ChipStore row). -/
structure ChipRow where
  trust_net : ℚ
  foreign_net : ℚ
  dealer_net : ℚ
  total_net : ℚ
deriving Repr, DecidableEq

/-- The large-holder trend sub-factor (screener.py lines 207-223),
computed from the major-holder ratio series of the shareholding store:
0 points unless at least 2 rows exist, else 10 points for a
week-over-week increase above 0.5, 5 points for a non-negative change,
0 otherwise. -/
def share_trend_points (share : List ℚ) : ℕ :=
  if share.isEmpty ∨ share.length < 2 then 0
  else
    let latest := share.getLastD 0
    let prev := share.dropLast.getLastD 0
    let change := latest - prev
    if (1/2 : ℚ) < change then 10
    else if 0 ≤ change then 5
    else 0

/-- The chip-score computation of StockScreener._layer2_chip_filter for
one symbol (screener.py lines 124-223). When the net-flow history is
empty or shorter than 5 rows, `recent_5d` is the empty frame and the
four net-flow sub-factors take their no-data branches; the large-holder
trend sub-factor reads the separate shareholding series regardless. -/
def chip_score_of (chip : List ChipRow) (share : List ℚ) : ℕ :=
  let recent5 := if chip.isEmpty ∨ chip.length < 5 then [] else lastN 5 chip
  let trust_consecutive :=
    (recent5.reverse.takeWhile (fun r => decide (0 < r.trust_net))).length
  let trust_pts : ℕ :=
    if 5 ≤ trust_consecutive then 30
    else if 3 ≤ trust_consecutive then 20
    else if 1 ≤ trust_consecutive then 10
    else 0
  let foreign_pts : ℕ :=
    match recent5.getLast? with
    | none => 0
    | some latest =>
        let avg := qmean (recent5.map ChipRow.foreign_net)
        if 1000 < avg ∧ 0 < latest.foreign_net then 25
        else if 0 < avg then 15
        else if -1000 < avg then 5
        else 0
  let dealer_pts : ℕ :=
    if recent5.isEmpty then 0
    else
      let dealer_5d_total := (recent5.map ChipRow.dealer_net).sum
      if 0 < dealer_5d_total then 15
      else if -500 < dealer_5d_total then 8
      else 0
  let total_pts : ℕ :=
    if recent5.isEmpty then 0
    else
      let total_5d_sum := (recent5.map ChipRow.total_net).sum
      if 5000 < total_5d_sum then 20
      else if 1000 < total_5d_sum then 15
      else if 0 < total_5d_sum then 10
      else 0
  trust_pts + foreign_pts + dealer_pts + total_pts + share_trend_points share

/-- A Layer-2 row: the Layer-1 row annotated with its chip score
(screener.py lines 226-231; every candidate is kept). -/
structure L2Row extends L1Row where
  chip_score : ℕ
deriving Repr, DecidableEq

/-- StockScreener._layer2_chip_filter (screener.py lines 109-236):
annotate every candidate with its chip score; no row is dropped. -/
def layer2_chip_filter (read_chip : String → List ChipRow)
    (read_share : String → List ℚ) (candidates : List L1Row) : List L2Row :=
  candidates.map (fun row =>
    { toL1Row := row,
      chip_score := chip_score_of (read_chip row.symbol) (read_share row.symbol) })

/-! ### Layer 3 — technical scoring (screener.py lines 238-425) -/

/-- One daily price bar of the symbol partition (the columns Layer 3
reads: close, high, low, volume; high and low enter only through the
stochastic oracle, which consumes the whole frame). -/
structure PriceBar where
  close : ℚ
  high : ℚ
  low : ℚ
  volume : ℚ
deriving Repr, DecidableEq

/-- The pandas_ta indicator outputs consumed by Layer 3, as oracles over
the price frame. `none` models the `is None or empty` branches of
screener.py (lines 302, 324, 343, 381). macd yields the latest MACD
line, signal line and histogram value together with the previous
histogram value (screener.py lines 303-308); stoch yields the latest K
and D; bbands yields the latest upper, middle and lower band. -/
structure TAOracles where
  macd : List PriceBar → Option (ℚ × ℚ × ℚ × ℚ)
  rsi : List PriceBar → Option ℚ
  stoch : List PriceBar → Option (ℚ × ℚ)
  bbands : List PriceBar → Option (ℚ × ℚ × ℚ)

/-- The signal mapping of screener.py lines 406-416: by total technical
score, at least 65 STRONG_BUY, at least 50 BUY, at least 35 WATCH, and
below 35 either OVERBOUGHT_REDUCE (when the 60-day bias exceeds 20) or
HOLD. -/
def assign_signal (tech_score : ℕ) (bias_60 : ℚ) : String :=
  if 65 ≤ tech_score then "STRONG_BUY"
  else if 50 ≤ tech_score then "BUY"
  else if 35 ≤ tech_score then "WATCH"
  else if 20 < bias_60 then "OVERBOUGHT_REDUCE"
  else "HOLD"

/-- A Layer-3 output row: the Layer-2 row annotated with signal,
technical score, 60-day bias and stochastic K/D. The fields written only
on the full-computation path are Options, none on the
data-insufficient path (where screener.py writes no such column). -/
structure L3Row extends L2Row where
  signal : String
  tech_score : ℕ
  bias_60 : Option ℚ
  k : Option ℚ
  d : Option ℚ
deriving Repr, DecidableEq

/-- The per-symbol body of StockScreener._layer3_technical_position
(screener.py lines 260-424). The whole body runs inside a try/except:
a read failure (or any other per-symbol exception, modelled by the
error case of the read) is caught at line 422 and the row is dropped
(`none`). A frame shorter than 120 bars keeps the row with signal
DATA_INSUFFICIENT and technical score 0 (lines 264-268). Otherwise the
six sub-scores are summed and the signal assigned (lines 270-416). -/
def layer3_row_scored (ta : TAOracles) (row : L2Row)
    (df : List PriceBar) : L3Row :=
    if df.isEmpty ∨ df.length < 120 then
      { toL2Row := row, signal := "DATA_INSUFFICIENT", tech_score := 0,
        bias_60 := none, k := none, d := none }
    else
      let closes := df.map PriceBar.close
      let ma20 := qmean (lastN 20 closes)
      let ma60 := qmean (lastN 60 closes)
      let ma120 := qmean (lastN 120 closes)
      let current_price := closes.getLastD 0
      let ma_pts : ℕ :=
        if current_price > ma20 ∧ ma20 > ma60 ∧ ma60 > ma120 then 25
        else if current_price > ma20 ∧ ma20 > ma60 then 20
        else if current_price > ma60 then 15
        else if current_price > ma120 then 10
        else 0
      let bias_60 := (current_price - ma60) / ma60 * 100
      let macd_pts : ℕ :=
        match ta.macd df with
        | none => 0
        | some (macd_line, signal_line, histogram, histogram_prev) =>
            if macd_line > signal_line ∧ histogram > 0 then
              if histogram > histogram_prev then 20 else 15
            else if macd_line > 0 then 10
            else 0
      let rsi_pts : ℕ :=
        match ta.rsi df with
        | none => 0
        | some rsi_value =>
            if 40 ≤ rsi_value ∧ rsi_value ≤ 70 then 15
            else if 30 ≤ rsi_value ∧ rsi_value < 40 then 10
            else if 70 < rsi_value then 5
            else 0
      let kd_res : Option ℚ × Option ℚ × ℕ :=
        match ta.stoch df with
        | none => (some 0, some 0, 0)
        | some kd =>
            (some kd.1, some kd.2,
             if kd.1 > kd.2 ∧ kd.1 < 80 then 15
             else if kd.1 > kd.2 then 10
             else if 20 ≤ kd.1 ∧ kd.1 ≤ 50 then 8
             else 0)
      let vols := df.map PriceBar.volume
      let recent_5d_vol := qmean (lastN 5 vols)
      let prev_20d_vol := qmean ((vols.drop (vols.length - 25)).take 20)
      let vol_pts : ℕ :=
        if recent_5d_vol > prev_20d_vol * (3/2) then 15
        else if recent_5d_vol > prev_20d_vol * (6/5) then 12
        else if recent_5d_vol > prev_20d_vol then 8
        else 0
      let bb_pts : ℕ :=
        match ta.bbands df with
        | none => 0
        | some ub =>
            let upper := ub.1
            let middle := ub.2.1
            let lower := ub.2.2
            if lower < current_price ∧ current_price < middle then 10
            else if middle < current_price ∧ current_price < (middle + upper) / 2 then 8
            else if current_price < lower then 5
            else 0
      let tech_score := ma_pts + macd_pts + rsi_pts + kd_res.2.2 + vol_pts + bb_pts
      { toL2Row := row, signal := assign_signal tech_score bias_60,
        tech_score := tech_score, bias_60 := some bias_60,
        k := kd_res.1, d := kd_res.2.1 }

/-- The try/except boundary around the body (screener.py lines 262 and
422): a per-symbol read failure (standing for any exception raised
while scoring that symbol) yields no row; a successful read yields the
scored row. -/
def layer3_row (read_price : String → Except String (List PriceBar))
    (ta : TAOracles) (row : L2Row) : Option L3Row :=
  match read_price row.symbol with
  | .error _ => none
  | .ok df => some (layer3_row_scored ta row df)

/-- StockScreener._layer3_technical_position (screener.py lines
238-425): annotate each candidate, dropping exactly the rows whose
per-symbol computation raised. -/
def layer3_technical_position (read_price : String → Except String (List PriceBar))
    (ta : TAOracles) (candidates : List L2Row) : List L3Row :=
  candidates.filterMap (layer3_row read_price ta)

/-- StockScreener.screen_stocks (screener.py lines 46-68): Layer 1, an
empty-result early return, Layer 2, an empty-result early return,
Layer 3. -/
def screen_stocks (calc_details : String → Except String FactorDetails)
    (get_stock_name : String → String)
    (read_chip : String → List ChipRow) (read_share : String → List ℚ)
    (read_price : String → Except String (List PriceBar)) (ta : TAOracles)
    (univ : List String) : List L3Row :=
  let l1 := layer1_fundamental_screen calc_details get_stock_name univ
  if l1.isEmpty then []
  else
    let l2 := layer2_chip_filter read_chip read_share l1
    if l2.isEmpty then []
    else layer3_technical_position read_price ta l2

/-! ### The missing method of claim C1 -/

/-- The methods the class FactorEngine defines (factors.py lines
21-384). -/
def factor_engine_methods : List String :=
  ["__init__", "_load_weights", "calculate_fundamental_score",
   "_get_fundamental_data", "_calculate_roe", "_calculate_eps_yoy",
   "_calculate_fcf", "_calculate_gross_margin_trend",
   "_calculate_debt_ratio", "_calculate_revenue_yoy",
   "_calculate_pe_relative", "_score_factor"]

/-- The call screener.py line 81 makes on a FactorEngine:
`factor_engine.calculate_fundamental_details(symbol)`. FactorEngine
defines no attribute of that name (see factor_engine_methods), so in
Python the attribute lookup raises AttributeError for every symbol;
the call is modelled as uniformly raising. -/
def factor_engine_calculate_fundamental_details (_engine : FactorEngine)
    (_symbol : String) : Except String FactorDetails :=
  .error "AttributeError: FactorEngine object has no attribute calculate_fundamental_details"

/-! ### Concrete fixtures used by witnesses and counterexamples -/

/-- The fundamentals frame of property P2: five quarters of net income
and equity. -/
def roe_example_df : DataFrame :=
  [("net_income", [1000, 1100, 1200, 1300, 1400]),
   ("equity", [5000, 5200, 5400, 5600, 5800])]

/-- A two-symbol engine for the Layer-1 gate: symbol A scores composite
140 at valuation tier 5, symbol B scores composite 180 (the highest) at
valuation tier 2. -/
def cd_ex : String → Except String FactorDetails := fun s =>
  if s = "A" then .ok { total_score := 140, factors := [("pe_relative", 5)] }
  else .ok { total_score := 180, factors := [("pe_relative", 2)] }

/-- A name lookup returning the symbol itself. -/
def gn_ex : String → String := fun s => s

/-- The Layer-1 row the gate keeps for symbol A under cd_ex. -/
def row_a : L1Row :=
  { symbol := "A", stock_name := "A", fundamental_score := 140,
    pe_score := 5, fundamental_details := [("pe_relative", 5)] }

/-- An engine that raises on symbol ERR and scores every other symbol
at composite 100, valuation tier 4. -/
def cd_err : String → Except String FactorDetails := fun s =>
  if s = "ERR" then .error "boom"
  else .ok { total_score := 100, factors := [("pe_relative", 4)] }

/-- Four days of strongly positive institutional flows: one row short of
the five-row minimum of Layer 2. -/
def chip_cex_rows : List ChipRow :=
  List.replicate 4 { trust_net := 9999, foreign_net := 9999,
                     dealer_net := 9999, total_net := 9999 }

/-- Indicator oracles that report every indicator unavailable. -/
def ta_none : TAOracles :=
  { macd := fun _ => none, rsi := fun _ => none,
    stoch := fun _ => none, bbands := fun _ => none }

/-- A flat price bar. -/
def bar_ex : PriceBar := { close := 10, high := 11, low := 9, volume := 1000 }

/-- A price store holding 100 bars (fewer than 120) for every symbol. -/
def read_price_short : String → Except String (List PriceBar) :=
  fun _ => .ok (List.replicate 100 bar_ex)

/-- A Layer-2 candidate row used by the Layer-3 witnesses. -/
def l2row_ex : L2Row :=
  { toL1Row := row_a, chip_score := 0 }

/-- A stand-in for the external standard-deviation routine that always
reports NaN. -/
def std_none : List ℚ → Option ℚ := fun _ => none

/-! ## Helper lemmas -/

/-- Mapping a filterMap is a sublist of the mapped input when the
filterMap preserves the mapped component. -/
theorem map_filterMap_sublist {α β γ : Type*} (f : α → Option β) (gA : α → γ)
    (gB : β → γ) (h : ∀ a b, f a = some b → gB b = gA a) (l : List α) :
    ((l.filterMap f).map gB).Sublist (l.map gA) := by
  induction l with
  | nil => simp
  | cons a tl ih =>
    cases hfa : f a with
    | none =>
      simp only [List.filterMap_cons, hfa, List.map_cons]
      exact List.Sublist.cons _ ih
    | some b =>
      simp only [List.filterMap_cons, hfa, List.map_cons, h a b hfa]
      exact List.Sublist.cons₂ _ ih

/-- Reduction of the Layer-3 per-symbol boundary on a successful read. -/
theorem layer3_row_eq_ok (rp : String → Except String (List PriceBar))
    (ta : TAOracles) (row : L2Row) (df : List PriceBar)
    (h : rp row.symbol = .ok df) :
    layer3_row rp ta row = some (layer3_row_scored ta row df) := by
  unfold layer3_row
  rw [h]

/-- Reduction of the Layer-3 per-symbol boundary on a raising read. -/
theorem layer3_row_eq_error (rp : String → Except String (List PriceBar))
    (ta : TAOracles) (row : L2Row) (e : String)
    (h : rp row.symbol = .error e) :
    layer3_row rp ta row = none := by
  unfold layer3_row
  rw [h]

/-- A kept Layer-3 row carries its Layer-2 row unchanged. -/
theorem layer3_row_some_toL2Row (rp : String → Except String (List PriceBar))
    (ta : TAOracles) (row : L2Row) (out : L3Row)
    (h : layer3_row rp ta row = some out) : out.toL2Row = row := by
  cases hrp : rp row.symbol with
  | error e =>
    rw [layer3_row_eq_error rp ta row e hrp] at h
    cases h
  | ok df =>
    rw [layer3_row_eq_ok rp ta row df hrp] at h
    simp only [Option.some.injEq] at h
    rw [← h]
    unfold layer3_row_scored
    split <;> rfl

/-- Layer 2 keeps the candidate list's symbols in order. -/
theorem layer2_map_symbol (rc : String → List ChipRow) (rs : String → List ℚ)
    (cands : List L1Row) :
    (layer2_chip_filter rc rs cands).map (fun r => r.symbol) =
      cands.map L1Row.symbol := by
  simp [layer2_chip_filter, List.map_map]

/-- Rows of the Layer-1 survivor list were scored successfully and carry
a pe score of at least 4 taken from the scored details. -/
theorem layer1_survivors_mem (cd : String → Except String FactorDetails)
    (gn : String → String) (univ : List String) (r : L1Row)
    (hr : r ∈ layer1_survivors cd gn univ) :
    r.symbol ∈ univ ∧ (∃ d, cd r.symbol = .ok d) ∧ 4 ≤ r.pe_score := by
  simp only [layer1_survivors, List.mem_filterMap] at hr
  obtain ⟨s, hs, heq⟩ := hr
  cases hcd : cd s with
  | error e => rw [hcd] at heq; simp at heq
  | ok details =>
    rw [hcd] at heq
    simp only [] at heq
    by_cases hlt : ((details.factors.lookup "pe_relative").getD 1) < 4
    · rw [if_pos hlt] at heq; cases heq
    · rw [if_neg hlt] at heq
      simp only [Option.some.injEq] at heq
      subst heq
      exact ⟨hs, ⟨details, hcd⟩, Nat.le_of_not_lt hlt⟩

/-! ## Claim theorems -/

/-- C1: when the screener is constructed with a FactorEngine, every
symbol's Layer-1 scoring raises (FactorEngine defines no
calculate_fundamental_details), the per-symbol handler catches each
error, Layer 1 comes out empty, and screen_stocks returns the empty
table for every universe. -/
theorem screen_stocks_with_factor_engine_empty (engine : FactorEngine)
    (gn : String → String) (rc : String → List ChipRow) (rs : String → List ℚ)
    (rp : String → Except String (List PriceBar)) (ta : TAOracles)
    (univ : List String) :
    screen_stocks (factor_engine_calculate_fundamental_details engine)
      gn rc rs rp ta univ = [] := by
  have hsurv : layer1_survivors
      (factor_engine_calculate_fundamental_details engine) gn univ = [] := by
    simp [layer1_survivors, factor_engine_calculate_fundamental_details]
  simp [screen_stocks, layer1_fundamental_screen, hsurv]

/-- C1 sanity check: the invoked method name is not among the methods
FactorEngine defines. -/
theorem factor_engine_missing_method :
    "calculate_fundamental_details" ∉ factor_engine_methods := by
  decide

/-- C5: _score_factor scans its ordered threshold table top to bottom,
greater-or-equal for the direct factors and less-or-equal for the
inverse factors, with an unknown name scoring 3 and no match scoring 1;
the characterizations below spell the scan out for a direct factor
(roe), both inverse factors, and an unknown factor, and evaluate the
five boundary cases of property P5. -/
theorem score_factor_scan_and_boundaries :
    (∀ v : ℚ, score_factor "roe" v =
      if 20 ≤ v then 5 else if 15 ≤ v then 4 else if 10 ≤ v then 3
      else if 5 ≤ v then 2 else 1)
  ∧ (∀ v : ℚ, score_factor "debt_ratio" v =
      if v ≤ 30 then 5 else if v ≤ 50 then 4 else if v ≤ 70 then 3
      else if v ≤ 85 then 2 else 1)
  ∧ (∀ v : ℚ, score_factor "pe_relative" v =
      if v ≤ -1 then 5 else if v ≤ 0 then 4 else if v ≤ 1 then 3
      else if v ≤ 2 then 2 else 1)
  ∧ (∀ v : ℚ, score_factor "unknown_factor" v = 3)
  ∧ score_factor "roe" 20 = 5
  ∧ score_factor "roe" (19999/1000) = 4
  ∧ score_factor "debt_ratio" 30 = 5
  ∧ score_factor "pe_relative" 2 = 2
  ∧ score_factor "pe_relative" (20001/10000) = 1 := by
  refine ⟨?_, ?_, ?_, ?_, ?_, ?_, ?_, ?_, ?_⟩ <;>
    first
    | (intro v;
       simp [score_factor, scoring_rules, scan_rules, threshold_matches,
             reverse_factors])
    | (norm_num [score_factor, scoring_rules, scan_rules, threshold_matches,
                 reverse_factors] <;> decide)

/-- C2: Layer 1 excludes every symbol whose pe_relative score is below 4
(each output row comes from the gate-surviving rows, all of which carry
pe score at least 4, whatever their composite score), retains the gate
survivors subject only to truncation (all of them appear in the output
whenever at most 30 survive), and the output is sorted by composite
fundamental score descending, truncated to at most 30 rows; Layers 2 and
3 preserve that order into the final table (its symbol sequence is a
subsequence of the Layer-1 symbol sequence). -/
theorem layer1_gate_sort_truncate (cd : String → Except String FactorDetails)
    (gn : String → String) (univ : List String) :
    (∀ r ∈ layer1_fundamental_screen cd gn univ, 4 ≤ r.pe_score)
    ∧ (layer1_fundamental_screen cd gn univ).length ≤ 30
    ∧ (layer1_fundamental_screen cd gn univ).Pairwise
        (fun a b => b.fundamental_score ≤ a.fundamental_score)
    ∧ (∀ r ∈ layer1_fundamental_screen cd gn univ,
        r ∈ layer1_survivors cd gn univ)
    ∧ ((layer1_survivors cd gn univ).length ≤ 30 →
        ∀ r ∈ layer1_survivors cd gn univ,
          r ∈ layer1_fundamental_screen cd gn univ)
    ∧ ∀ (rc : String → List ChipRow) (rs : String → List ℚ)
        (rp : String → Except String (List PriceBar)) (ta : TAOracles),
        ((screen_stocks cd gn rc rs rp ta univ).map (fun r => r.symbol)).Sublist
          ((layer1_fundamental_screen cd gn univ).map L1Row.symbol) := by
  have hmem : ∀ r ∈ layer1_fundamental_screen cd gn univ,
      r ∈ layer1_survivors cd gn univ := by
    intro r hr
    unfold layer1_fundamental_screen at hr
    by_cases h : (layer1_survivors cd gn univ).isEmpty
    · rw [if_pos h] at hr; exact hr
    · rw [if_neg h] at hr
      exact ((layer1_survivors cd gn univ).mergeSort_perm l1_desc).subset
        (List.mem_of_mem_take hr)
  refine ⟨?_, ?_, ?_, hmem, ?_, ?_⟩
  · intro r hr
    exact (layer1_survivors_mem cd gn univ r (hmem r hr)).2.2
  · unfold layer1_fundamental_screen
    by_cases h : (layer1_survivors cd gn univ).isEmpty
    · rw [if_pos h]
      rw [List.isEmpty_iff] at h
      simp [h]
    · rw [if_neg h]
      simp
  · unfold layer1_fundamental_screen
    by_cases h : (layer1_survivors cd gn univ).isEmpty
    · rw [if_pos h]
      rw [List.isEmpty_iff] at h
      simp [h]
    · rw [if_neg h]
      have hsorted : ((layer1_survivors cd gn univ).mergeSort l1_desc).Pairwise
          (fun a b => l1_desc a b = true) := by
        apply List.sorted_mergeSort
        · intro a b c hab hbc
          simp only [l1_desc, decide_eq_true_eq] at *
          exact le_trans hbc hab
        · intro a b
          simp only [l1_desc, Bool.or_eq_true, decide_eq_true_eq]
          exact le_total _ _
      have htake := hsorted.sublist (List.take_sublist 30 _)
      exact htake.imp (fun hab => by
        simpa [l1_desc, decide_eq_true_eq] using hab)
  · intro hlen r hr
    unfold layer1_fundamental_screen
    have hne : ¬ (layer1_survivors cd gn univ).isEmpty := by
      rw [List.isEmpty_iff]
      intro hnil
      rw [hnil] at hr
      exact (List.not_mem_nil r) hr
    rw [if_neg hne]
    have hlen2 : ((layer1_survivors cd gn univ).mergeSort l1_desc).length ≤ 30 := by
      rw [List.length_mergeSort]
      exact hlen
    rw [List.take_of_length_le hlen2]
    exact ((layer1_survivors cd gn univ).mergeSort_perm l1_desc).mem_iff.mpr hr
  · intro rc rs rp ta
    unfold screen_stocks
    by_cases h1 : (layer1_fundamental_screen cd gn univ).isEmpty
    · rw [if_pos h1]
      simp
    · rw [if_neg h1]
      by_cases h2 : (layer2_chip_filter rc rs
          (layer1_fundamental_screen cd gn univ)).isEmpty
      · rw [if_pos h2]
        simp
      · rw [if_neg h2]
        have hs := map_filterMap_sublist (layer3_row rp ta)
          (fun r : L2Row => r.symbol) (fun r : L3Row => r.symbol)
          (fun a b hb => by rw [← layer3_row_some_toL2Row rp ta a b hb])
          (layer2_chip_filter rc rs (layer1_fundamental_screen cd gn univ))
        rw [layer2_map_symbol] at hs
        exact hs

/-- C7: a per-symbol scoring failure in Layer 1 or Layer 3 is caught
inside the layer: every row the layer emits comes from a successful
per-symbol computation, and removing a failing symbol from the batch
leaves the layer output unchanged (the other symbols are processed
exactly as before, so the batch continues). screen_stocks itself is a
total function of its inputs — in this embedding every exception a
per-symbol computation can raise is a value the layers catch, so no
exception propagates to the caller. -/
theorem per_symbol_errors_contained (cd : String → Except String FactorDetails)
    (gn : String → String) :
    (∀ (univ : List String) (r : L1Row),
        r ∈ layer1_fundamental_screen cd gn univ → ∃ d, cd r.symbol = .ok d)
    ∧ (∀ (u₁ u₂ : List String) (s : String) (e : String), cd s = .error e →
        layer1_fundamental_screen cd gn (u₁ ++ s :: u₂) =
          layer1_fundamental_screen cd gn (u₁ ++ u₂))
    ∧ (∀ (rp : String → Except String (List PriceBar)) (ta : TAOracles)
        (cands : List L2Row) (out : L3Row),
        out ∈ layer3_technical_position rp ta cands →
          ∃ df, rp out.symbol = .ok df)
    ∧ (∀ (rp : String → Except String (List PriceBar)) (ta : TAOracles)
        (c₁ c₂ : List L2Row) (bad : L2Row) (e : String),
        rp bad.symbol = .error e →
        layer3_technical_position rp ta (c₁ ++ bad :: c₂) =
          layer3_technical_position rp ta (c₁ ++ c₂)) := by
  refine ⟨?_, ?_, ?_, ?_⟩
  · intro univ r hr
    have hmem : r ∈ layer1_survivors cd gn univ := by
      unfold layer1_fundamental_screen at hr
      by_cases h : (layer1_survivors cd gn univ).isEmpty
      · rw [if_pos h] at hr; exact hr
      · rw [if_neg h] at hr
        exact ((layer1_survivors cd gn univ).mergeSort_perm l1_desc).subset
          (List.mem_of_mem_take hr)
    exact (layer1_survivors_mem cd gn univ r hmem).2.1
  · intro u₁ u₂ s e he
    have hsurv : layer1_survivors cd gn (u₁ ++ s :: u₂) =
        layer1_survivors cd gn (u₁ ++ u₂) := by
      simp [layer1_survivors, List.filterMap_append, List.filterMap_cons, he]
    unfold layer1_fundamental_screen
    rw [hsurv]
  · intro rp ta cands out hout
    simp only [layer3_technical_position, List.mem_filterMap] at hout
    obtain ⟨row, _, heq⟩ := hout
    have ht2 := layer3_row_some_toL2Row rp ta row out heq
    cases hrp : rp row.symbol with
    | error err =>
      rw [layer3_row_eq_error rp ta row err hrp] at heq
      cases heq
    | ok df =>
      refine ⟨df, ?_⟩
      rw [← ht2] at hrp
      exact hrp
  · intro rp ta c₁ c₂ bad e he
    have hnone : layer3_row rp ta bad = none :=
      layer3_row_eq_error rp ta bad e he
    simp [layer3_technical_position, List.filterMap_append,
          List.filterMap_cons, hnone]

/-- C3 counterexample: with only 4 net-flow rows (below the 5-row
minimum) but two shareholding rows whose major-holder ratio rises by a
full point, the chip score is 10, not 0 — the insufficiency of the
net-flow history does not override the large-holder trend sub-factor,
which reads the separate shareholding series (screener.py lines
207-223) after the net-flow sub-factors were zeroed. -/
theorem chip_hard_override_cex :
    chip_cex_rows.length < 5 ∧ chip_score_of chip_cex_rows [10, 11] = 10 := by
  constructor
  · decide
  · norm_num [chip_score_of, chip_cex_rows, share_trend_points, lastN, qmean]

/-- C3 amended: when the net-flow history has fewer than 5 rows, the
four net-flow sub-factors each contribute 0 regardless of the values
present, and the chip score equals exactly the large-holder trend
sub-score computed from the shareholding series; it is 0 only when the
shareholding series is also shorter than 2 rows. Every Layer-2 output
row carries the chip score computed this way from its symbol's data. -/
theorem chip_insufficient_share_only :
    (∀ (chip : List ChipRow) (share : List ℚ), chip.length < 5 →
        chip_score_of chip share = share_trend_points share)
    ∧ (∀ (chip : List ChipRow) (share : List ℚ), chip.length < 5 →
        share.length < 2 → chip_score_of chip share = 0)
    ∧ (∀ (rc : String → List ChipRow) (rs : String → List ℚ)
        (cands : List L1Row) (out : L2Row),
        out ∈ layer2_chip_filter rc rs cands →
        out.chip_score = chip_score_of (rc out.symbol) (rs out.symbol)) := by
  have hbase : ∀ (chip : List ChipRow) (share : List ℚ), chip.length < 5 →
      chip_score_of chip share = share_trend_points share := by
    intro chip share hlen
    simp [chip_score_of, hlen]
  refine ⟨hbase, ?_, ?_⟩
  · intro chip share hlen hshare
    rw [hbase chip share hlen]
    simp [share_trend_points, hshare]
  · intro rc rs cands out hout
    simp only [layer2_chip_filter, List.mem_map] at hout
    obtain ⟨row, _, heq⟩ := hout
    rw [← heq]

/-- C3 amended witness: three net-flow rows and a rising shareholding
series give a chip score equal to the share-trend sub-score. -/
theorem chip_insufficient_share_only_witness :
    chip_score_of (List.replicate 3
        { trust_net := 1, foreign_net := 1, dealer_net := 1, total_net := 1 })
      [10, 11] = share_trend_points [10, 11] :=
  chip_insufficient_share_only.1 _ _ (by decide)

/-- Summing ordinal scores in [1,5] against nonnegative weights bounds
the weighted sum between the weight total and five times the weight
total. -/
theorem weighted_sum_bounds (w : List (String × ℚ)) (s : String → ℕ) :
    ∀ L : List String, (∀ f ∈ L, 0 ≤ wget w f) →
      (∀ f ∈ L, 1 ≤ s f ∧ s f ≤ 5) →
      (L.map (wget w)).sum ≤ (L.map (fun f => (s f : ℚ) * wget w f)).sum
      ∧ (L.map (fun f => (s f : ℚ) * wget w f)).sum ≤ 5 * (L.map (wget w)).sum := by
  intro L
  induction L with
  | nil => simp
  | cons a tl ih =>
    intro hpos hs
    have h0 := hpos a (by simp)
    have h1 : (1 : ℚ) ≤ (s a : ℚ) := by exact_mod_cast (hs a (by simp)).1
    have h5 : ((s a : ℚ)) ≤ 5 := by exact_mod_cast (hs a (by simp)).2
    have iht := ih (fun f hf => hpos f (by simp [hf]))
      (fun f hf => hs f (by simp [hf]))
    simp only [List.map_cons, List.sum_cons]
    constructor
    · have hlow : wget w a ≤ (s a : ℚ) * wget w a := le_mul_of_one_le_left h0 h1
      linarith [iht.1]
    · have hhigh : (s a : ℚ) * wget w a ≤ 5 * wget w a :=
        mul_le_mul_of_nonneg_right h5 h0
      linarith [iht.2]

/-- C4 counterexample: a parsed config whose single weight sums to 1/2
(not 1) is accepted unchanged at engine construction — construction is
an infallible total function that performs no sum validation, so the
claimed fatal detection of a wrong-sum mapping does not exist. -/
theorem weights_not_validated_cex :
    FactorEngine.init (.parsed [("roe", (1 : ℚ)/2)]) =
      { weights := [("roe", (1 : ℚ)/2)] }
    ∧ (factor_names.map (wget [("roe", (1 : ℚ)/2)])).sum = 1/2 := by
  constructor
  · simp [FactorEngine.init, load_weights]
  · simp [factor_names, wget, List.lookup]

/-- C4 amended: engine construction performs no validation of the
loaded weights — any nonempty parsed mapping is accepted exactly as
loaded (a missing, unreadable or empty config falls back to the
defaults), and nothing is fatal. Nevertheless, for every mapping of
nonnegative weights whose values over the 7 registered factor names sum
to 1 and every assignment of ordinal scores in [1,5], the composite
fundamental score lies within [40,200]. -/
theorem weights_accepted_and_composite_bounds :
    (∀ w : List (String × ℚ), ¬ w.isEmpty → load_weights (.parsed w) = w)
    ∧ (∀ (w : List (String × ℚ)) (s : String → ℕ),
        (∀ f ∈ factor_names, 0 ≤ wget w f) →
        (factor_names.map (wget w)).sum = 1 →
        (∀ f ∈ factor_names, 1 ≤ s f ∧ s f ≤ 5) →
        40 ≤ final_score w s ∧ final_score w s ≤ 200) := by
  constructor
  · intro w hw
    simp [load_weights, hw]
  · intro w s hpos hsum hs
    have hb := weighted_sum_bounds w s factor_names hpos hs
    rw [hsum] at hb
    unfold final_score weighted_score
    constructor
    · linarith [hb.1]
    · linarith [hb.2]

/-- C4 amended witness: the degenerate mapping putting weight 1 on roe
alone sums to 1 and yields a composite within [40,200] at uniform
score 3. -/
theorem weights_accepted_and_composite_bounds_witness :
    40 ≤ final_score [("roe", 1)] (fun _ => 3)
    ∧ final_score [("roe", 1)] (fun _ => 3) ≤ 200 :=
  weights_accepted_and_composite_bounds.2 [("roe", 1)] (fun _ => 3)
    (by simp [factor_names, wget, List.lookup])
    (by simp [factor_names, wget, List.lookup])
    (by simp [factor_names])

/-- C6: _calculate_roe returns the sum of the last 4 net-income values
divided by the mean of the last 4 equity values, times 100, whenever at
least 4 rows exist, both columns are present and the last 4 equity
values are all positive; it returns 0.0 for a series shorter than 4
rows (this guard runs first, so it wins even over a missing column) and
for a non-positive equity value among the last 4; it raises the
missing-column failure when at least 4 rows exist but a required column
is absent; and on the P2 example frame it returns 1000/11 = 90.9090...,
which rounds to the 90.91 of the claim. -/
theorem calculate_roe_spec (df : DataFrame) :
    (df_nrows df < 4 → calculate_roe df = .ok 0)
    ∧ (∀ ni eq, 4 ≤ df_nrows df → df_get_col df "net_income" = some ni →
        df_get_col df "equity" = some eq → (∀ x ∈ lastN 4 eq, 0 < x) →
        calculate_roe df = .ok ((lastN 4 ni).sum / qmean (lastN 4 eq) * 100))
    ∧ (4 ≤ df_nrows df →
        ¬ (df_has_col df "net_income" = true ∧ df_has_col df "equity" = true) →
        calculate_roe df = .error "Missing columns for ROE")
    ∧ (∀ eq, 4 ≤ df_nrows df → df_has_col df "net_income" = true →
        df_get_col df "equity" = some eq → (∃ x ∈ lastN 4 eq, x ≤ 0) →
        calculate_roe df = .ok 0)
    ∧ calculate_roe roe_example_df = .ok (1000/11) := by
  refine ⟨?_, ?_, ?_, ?_, ?_⟩
  · intro h
    unfold calculate_roe
    rw [if_pos h]
  · intro ni eq h4 hni heq hpos
    unfold calculate_roe
    rw [if_neg (by omega)]
    rw [if_neg (by simp [df_has_col, hni, heq])]
    rw [hni, heq]
    simp only [Option.getD_some]
    rw [if_neg (by
      simp only [List.any_eq_true, decide_eq_true_eq, not_exists, not_and,
                 not_le]
      intro x hx
      exact hpos x hx)]
    by_cases hemp : lastN 4 eq = []
    · rw [if_pos (by simp [hemp, qmean])]
      simp [hemp, qmean]
    · rw [if_neg (by
        simp only [not_le]
        have hsum : 0 < (lastN 4 eq).sum := List.sum_pos _ hpos hemp
        have hlen : 0 < ((lastN 4 eq).length : ℚ) := by
          have := List.length_pos.mpr hemp
          exact_mod_cast this
        exact div_pos hsum hlen)]
  · intro h4 hcols
    unfold calculate_roe
    rw [if_neg (by omega)]
    rw [if_pos (by
      cases hA : df_has_col df "net_income" <;>
        cases hB : df_has_col df "equity" <;> simp_all)]
  · intro eq h4 hni heq hbad
    unfold calculate_roe
    rw [if_neg (by omega)]
    rw [if_neg (by
      have hni2 : ¬ df_get_col df "net_income" = none := by
        simpa [df_has_col, Option.isSome_iff_ne_none] using hni
      simp [df_has_col, heq, hni2])]
    rw [heq]
    simp only [Option.getD_some]
    rw [if_pos (by
      simp only [List.any_eq_true, decide_eq_true_eq]
      exact hbad)]
  · have h2 : df_get_col roe_example_df "net_income" =
        some [1000, 1100, 1200, 1300, 1400] := by
      simp [roe_example_df, df_get_col, List.find?]
    have h3 : df_get_col roe_example_df "equity" =
        some [5000, 5200, 5400, 5600, 5800] := by
      simp [roe_example_df, df_get_col, List.find?]
    unfold calculate_roe
    rw [if_neg (by simp [roe_example_df, df_nrows])]
    rw [if_neg (by simp [df_has_col, h2, h3])]
    rw [h2, h3]
    simp only [Option.getD_some]
    norm_num [lastN, qmean]

/-- C8: a candidate whose price history holds fewer than 120 bars gets
signal DATA_INSUFFICIENT and technical score 0, and its row is still
present in the Layer-3 output (not dropped). -/
theorem layer3_data_insufficient_retained
    (rp : String → Except String (List PriceBar)) (ta : TAOracles)
    (cands : List L2Row) (row : L2Row) (df : List PriceBar)
    (hmem : row ∈ cands) (hread : rp row.symbol = .ok df)
    (hshort : df.length < 120) :
    layer3_row rp ta row =
      some { toL2Row := row, signal := "DATA_INSUFFICIENT", tech_score := 0,
             bias_60 := none, k := none, d := none }
    ∧ ∃ out ∈ layer3_technical_position rp ta cands,
        out.toL2Row = row ∧ out.signal = "DATA_INSUFFICIENT"
        ∧ out.tech_score = 0 := by
  have h1 : layer3_row rp ta row =
      some { toL2Row := row, signal := "DATA_INSUFFICIENT", tech_score := 0,
             bias_60 := none, k := none, d := none } := by
    rw [layer3_row_eq_ok rp ta row df hread]
    unfold layer3_row_scored
    rw [if_pos (Or.inr hshort)]
  refine ⟨h1, ⟨{ toL2Row := row, signal := "DATA_INSUFFICIENT",
                 tech_score := 0, bias_60 := none, k := none, d := none },
               ?_, rfl, rfl, rfl⟩⟩
  exact List.mem_filterMap.mpr ⟨row, hmem, h1⟩

/-- C9: for a candidate scored with at least 120 bars, the Layer-3
signal is assign_signal applied to the total technical score and the
60-day bias stored on the row, and assign_signal maps score at least 65
to STRONG_BUY, 50 to 64 to BUY, 35 to 49 to WATCH, and below 35 to
OVERBOUGHT_REDUCE when the bias exceeds 20 and HOLD otherwise; the
seven boundary cases of property P9 are evaluated concretely. -/
theorem layer3_signal_mapping :
    (∀ (sc : ℕ) (b : ℚ), 65 ≤ sc → assign_signal sc b = "STRONG_BUY")
    ∧ (∀ (sc : ℕ) (b : ℚ), 50 ≤ sc → sc < 65 → assign_signal sc b = "BUY")
    ∧ (∀ (sc : ℕ) (b : ℚ), 35 ≤ sc → sc < 50 → assign_signal sc b = "WATCH")
    ∧ (∀ (sc : ℕ) (b : ℚ), sc < 35 → 20 < b →
        assign_signal sc b = "OVERBOUGHT_REDUCE")
    ∧ (∀ (sc : ℕ) (b : ℚ), sc < 35 → b ≤ 20 → assign_signal sc b = "HOLD")
    ∧ assign_signal 65 0 = "STRONG_BUY"
    ∧ assign_signal 64 0 = "BUY"
    ∧ assign_signal 50 0 = "BUY"
    ∧ assign_signal 49 0 = "WATCH"
    ∧ assign_signal 35 0 = "WATCH"
    ∧ assign_signal 34 25 = "OVERBOUGHT_REDUCE"
    ∧ assign_signal 34 10 = "HOLD"
    ∧ (∀ (rp : String → Except String (List PriceBar)) (ta : TAOracles)
        (row : L2Row) (df : List PriceBar) (out : L3Row),
        rp row.symbol = .ok df → ¬ (df.isEmpty ∨ df.length < 120) →
        layer3_row rp ta row = some out →
        ∃ b, out.bias_60 = some b
          ∧ out.signal = assign_signal out.tech_score b) := by
  refine ⟨?_, ?_, ?_, ?_, ?_, ?_, ?_, ?_, ?_, ?_, ?_, ?_, ?_⟩
  · intro sc b h
    simp [assign_signal, h]
  · intro sc b h1 h2
    rw [assign_signal, if_neg (by omega), if_pos h1]
  · intro sc b h1 h2
    rw [assign_signal, if_neg (by omega), if_neg (by omega), if_pos h1]
  · intro sc b h1 h2
    rw [assign_signal, if_neg (by omega), if_neg (by omega),
        if_neg (by omega), if_pos h2]
  · intro sc b h1 h2
    rw [assign_signal, if_neg (by omega), if_neg (by omega),
        if_neg (by omega), if_neg (not_lt.mpr h2)]
  · norm_num [assign_signal]
  · norm_num [assign_signal]
  · norm_num [assign_signal]
  · norm_num [assign_signal]
  · norm_num [assign_signal]
  · norm_num [assign_signal]
  · norm_num [assign_signal]
  · intro rp ta row df out hread hlong heq
    rw [layer3_row_eq_ok rp ta row df hread] at heq
    simp only [Option.some.injEq] at heq
    subst heq
    unfold layer3_row_scored
    rw [if_neg hlong]
    exact ⟨_, rfl, rfl⟩

/-- Every element of the positive-PE window is positive (the window is
a suffix of the filter keeping only positive PEs). -/
theorem pe_series_pos (price fund : List (ℚ × ℚ)) :
    ∀ x ∈ pe_series price fund, 0 < x := by
  intro x hx
  simp only [pe_series, lastN] at hx
  have hx2 := List.mem_of_mem_drop hx
  rw [List.mem_filter] at hx2
  exact of_decide_eq_true hx2.2

/-- The mean of a nonempty list of positive rationals is positive. -/
theorem qmean_pos (l : List ℚ) (hne : l ≠ []) (hpos : ∀ x ∈ l, 0 < x) :
    0 < qmean l := by
  have hsum : 0 < l.sum := List.sum_pos _ hpos hne
  have hlen : 0 < (l.length : ℚ) := by
    exact_mod_cast List.length_pos.mpr hne
  exact div_pos hsum hlen

/-- C10: _calculate_pe_relative returns 1.0 on an empty price history,
an empty or shorter-than-5-quarters fundamentals series, or an empty
positive-PE window; 2.0 when (past those guards) the current PE is NaN
or non-positive; the standardized deviation (current minus mean over
std) computed over the most recent 756 positive-PE observations when
the standard deviation is positive; and the ratio of current to mean PE
as the fallback when the standard deviation is 0. -/
theorem pe_relative_branches (std : List ℚ → Option ℚ)
    (price fund : List (ℚ × ℚ)) :
    (price = [] ∨ fund = [] ∨ fund.length < 5 →
      pe_relative std price fund = 1)
    ∧ (pe_series price fund = [] → pe_relative std price fund = 1)
    ∧ (∀ cur, price ≠ [] → fund ≠ [] → ¬ fund.length < 5 →
        pe_series price fund ≠ [] → current_pe price fund = some cur →
        cur ≤ 0 → pe_relative std price fund = 2)
    ∧ (price ≠ [] → fund ≠ [] → ¬ fund.length < 5 →
        pe_series price fund ≠ [] → current_pe price fund = none →
        pe_relative std price fund = 2)
    ∧ (∀ cur s, price ≠ [] → fund ≠ [] → ¬ fund.length < 5 →
        pe_series price fund ≠ [] → current_pe price fund = some cur →
        0 < cur → std (pe_series price fund) = some s → 0 < s →
        pe_relative std price fund =
          (cur - qmean (pe_series price fund)) / s)
    ∧ (∀ cur, price ≠ [] → fund ≠ [] → ¬ fund.length < 5 →
        pe_series price fund ≠ [] → current_pe price fund = some cur →
        0 < cur → std (pe_series price fund) = some 0 →
        pe_relative std price fund =
          cur / qmean (pe_series price fund)) := by
  refine ⟨?_, ?_, ?_, ?_, ?_, ?_⟩
  · intro h
    rcases h with h | h | h <;> simp [pe_relative, h]
  · intro hser
    by_cases hg : price.isEmpty ∨ fund.isEmpty ∨ fund.length < 5
    · unfold pe_relative
      rw [if_pos hg]
    · unfold pe_relative
      rw [if_neg hg]
      simp [hser]
  · intro cur hp hf hlen hser hcur hle
    unfold pe_relative
    rw [if_neg (by simp [List.isEmpty_iff, hp, hf, hlen])]
    simp only []
    rw [if_neg (by simp [List.isEmpty_iff, hser])]
    rw [hcur]
    cases hstd : std (pe_series price fund) with
    | none => simp [pe_relative_of_current, hle]
    | some s => simp [pe_relative_of_current, hle]
  · intro hp hf hlen hser hcur
    unfold pe_relative
    rw [if_neg (by simp [List.isEmpty_iff, hp, hf, hlen])]
    simp only []
    rw [if_neg (by simp [List.isEmpty_iff, hser])]
    rw [hcur]
    cases hstd : std (pe_series price fund) with
    | none => simp [pe_relative_of_current]
    | some s => simp [pe_relative_of_current]
  · intro cur s hp hf hlen hser hcur hpos hstd hs
    unfold pe_relative
    rw [if_neg (by simp [List.isEmpty_iff, hp, hf, hlen])]
    simp only []
    rw [if_neg (by simp [List.isEmpty_iff, hser])]
    rw [hcur, hstd]
    simp [pe_relative_of_current, not_le.mpr hpos, hs]
  · intro cur hp hf hlen hser hcur hpos hstd
    have hmean : 0 < qmean (pe_series price fund) :=
      qmean_pos _ hser (pe_series_pos price fund)
    unfold pe_relative
    rw [if_neg (by simp [List.isEmpty_iff, hp, hf, hlen])]
    simp only []
    rw [if_neg (by simp [List.isEmpty_iff, hser])]
    rw [hcur, hstd]
    simp [pe_relative_of_current, not_le.mpr hpos, hmean]

/-- C2 witness: in the two-symbol universe where B holds the highest
composite but valuation tier 2, the gate-surviving row for A (the only
survivor, so at most 30 survive) appears in the Layer-1 output. -/
theorem layer1_gate_sort_truncate_witness :
    row_a ∈ layer1_fundamental_screen cd_ex gn_ex ["A", "B"] :=
  (layer1_gate_sort_truncate cd_ex gn_ex ["A", "B"]).2.2.2.2.1
    (by decide) row_a (by decide)

/-- C6 witness: the P2 frame satisfies the formula branch, giving the
TTM-over-average-equity value. -/
theorem calculate_roe_spec_witness :
    calculate_roe roe_example_df =
      .ok ((lastN 4 [1000, 1100, 1200, 1300, 1400]).sum /
        qmean (lastN 4 [5000, 5200, 5400, 5600, 5800]) * 100) :=
  (calculate_roe_spec roe_example_df).2.1
    [1000, 1100, 1200, 1300, 1400] [5000, 5200, 5400, 5600, 5800]
    (by decide) (by rfl) (by rfl) (by decide)

/-- C7 witness: removing the symbol whose scoring raises leaves the
Layer-1 output unchanged. -/
theorem per_symbol_errors_contained_witness :
    layer1_fundamental_screen cd_err gn_ex (["A"] ++ "ERR" :: ["B"]) =
      layer1_fundamental_screen cd_err gn_ex (["A"] ++ ["B"]) :=
  (per_symbol_errors_contained cd_err gn_ex).2.1 ["A"] ["B"] "ERR" "boom"
    (by rfl)

/-- C8 witness: a candidate with a 100-bar history is kept with signal
DATA_INSUFFICIENT and technical score 0. -/
theorem layer3_data_insufficient_retained_witness :
    layer3_row read_price_short ta_none l2row_ex =
      some { toL2Row := l2row_ex, signal := "DATA_INSUFFICIENT",
             tech_score := 0, bias_60 := none, k := none, d := none }
    ∧ ∃ out ∈ layer3_technical_position read_price_short ta_none [l2row_ex],
        out.toL2Row = l2row_ex ∧ out.signal = "DATA_INSUFFICIENT"
        ∧ out.tech_score = 0 :=
  layer3_data_insufficient_retained read_price_short ta_none [l2row_ex]
    l2row_ex (List.replicate 100 bar_ex) (by simp) (by rfl) (by simp)

/-- C9 witness: a technical score of 70 maps to STRONG_BUY. -/
theorem layer3_signal_mapping_witness : assign_signal 70 0 = "STRONG_BUY" :=
  layer3_signal_mapping.1 70 0 (by decide)

/-- C10 witness: empty inputs hit the neutral 1.0 guard. -/
theorem pe_relative_branches_witness : pe_relative std_none [] [] = 1 :=
  (pe_relative_branches std_none [] []).1 (Or.inl rfl)

end FinGear

